import Mathlib

/-!
Verification development for the diagnostic-logging module `log.py` of the
FML-Logs repository.

The Python module is shallowly embedded: the module-level mutable globals
(`_LOGGER`, `_LOG_SETUP`, `_CONSOLE_LEVEL`, `_CONSOLE_FORMAT`) become an
explicit `LogState` record threaded through the registry operations, and the
ambient filesystem / OS / network behaviour consulted by the directory
resolver and the exporters becomes explicit environment records (`Env`,
`PasteEnv`).  Emission of log lines by the module itself (`LOG.debug`,
`LOG.error`, ...) is observed through boolean / trace fields of the result
records; the formatted text of those lines is not modelled, since no verified
property inspects it.
-/

namespace FMLog

/-- `logging.INFO` in the Python standard library. -/
def INFO : Nat := 20

/-- `logging.DEBUG` in the Python standard library. -/
def DEBUG : Nat := 10

/-- The two formatter objects of the module: `_FORMATTER_USER`
(`"%(message)s"`, message only) and `_FORMATTER_DEBUG`
(`"%(asctime)s - %(levelname)s - %(message)s"`). -/
inductive Fmt where
  | user
  | debug
deriving DecidableEq

/-- The stream backing a `logging.StreamHandler`: the console handler uses the
default standard-error stream, the buffer handler an in-memory
`io.StringIO()` holding the accumulated text. -/
inductive LogStream where
  | stderr
  | stringIo (contents : String)
deriving DecidableEq

/-- A `logging.StreamHandler` as configured by this module: a name, a minimum
level, a formatter and a backing stream. -/
structure Handler where
  name : String
  level : Nat
  formatter : Fmt
  stream : LogStream
deriving DecidableEq

/-- The module-level mutable state: `_LOG_SETUP`, `_CONSOLE_LEVEL`,
`_CONSOLE_FORMAT`, and the handler list of the shared `_LOGGER`. -/
structure LogState where
  logSetup : Bool
  consoleLevel : Nat
  consoleFormat : Fmt
  handlers : List Handler
deriving DecidableEq

/-- The state at module import time: logger not yet set up, no handlers
attached, console defaults `logging.INFO` and the user (message-only)
format. -/
def initState : LogState :=
  { logSetup := false, consoleLevel := INFO, consoleFormat := Fmt.user,
    handlers := [] }

/-- `setup_console_handler()`: a fresh handler named `"console"` with the
current module-level console level and format (`_CONSOLE_LEVEL`,
`_CONSOLE_FORMAT`). -/
def setup_console_handler (st : LogState) : Handler :=
  { name := "console", level := st.consoleLevel, formatter := st.consoleFormat,
    stream := LogStream.stderr }

/-- `setup_buffer_handler()`: a fresh handler named `"buffer"` at
`logging.DEBUG` with the debug formatter over an empty `io.StringIO()`. -/
def setup_buffer_handler : Handler :=
  { name := "buffer", level := DEBUG, formatter := Fmt.debug,
    stream := LogStream.stringIo "" }

/-- `get_logger()`: when `_LOG_SETUP` is false, attach the console handler and
then the buffer handler (`Logger.addHandler` appends) and set `_LOG_SETUP`;
otherwise return the shared logger unchanged. -/
def get_logger (st : LogState) : LogState :=
  if st.logSetup then st
  else
    { st with
      handlers := st.handlers ++ [setup_console_handler st, setup_buffer_handler],
      logSetup := true }

lemma get_logger_of_setup (st : LogState) (h : st.logSetup = true) :
    get_logger st = st := by
  simp [get_logger, h]

lemma logSetup_get_logger (st : LogState) : (get_logger st).logSetup = true := by
  by_cases h : st.logSetup = true
  · simp [get_logger, h]
  · simp at h
    simp [get_logger, h]

lemma get_logger_idem (st : LogState) :
    get_logger (get_logger st) = get_logger st :=
  get_logger_of_setup _ (logSetup_get_logger st)

lemma iterate_get_logger (n : Nat) :
    get_logger^[n] (get_logger initState) = get_logger initState := by
  induction n with
  | zero => rfl
  | succ k ih => rw [Function.iterate_succ_apply', ih, get_logger_idem]

/-- C1: starting from the freshly imported module, any positive number of
repeated `get_logger()` calls leaves exactly one handler named `"console"`
and exactly one named `"buffer"` attached (both attached by the first call),
and the logger state after any number of further calls is identical to the
state after the first call: every call yields the same shared logger. -/
theorem get_logger_attaches_sinks_once (n : Nat) :
    (get_logger^[n + 1] initState).handlers.countP
        (fun h => h.name == "console") = 1 ∧
    (get_logger^[n + 1] initState).handlers.countP
        (fun h => h.name == "buffer") = 1 ∧
    get_logger^[n + 1] initState = get_logger initState := by
  have h1 : get_logger^[n + 1] initState = get_logger initState := by
    rw [Function.iterate_succ_apply]
    exact iterate_get_logger n
  refine ⟨?_, ?_, h1⟩ <;> rw [h1] <;> decide

/-- `_set_console_handler(level, formatter)`: when the logger is set up, set
level and formatter on every attached handler named `"console"`; a no-op when
`_LOG_SETUP` is false. -/
def _set_console_handler (level : Nat) (fmt : Fmt) (st : LogState) : LogState :=
  if st.logSetup then
    let st' := get_logger st
    { st' with
      handlers := st'.handlers.map fun h =>
        if h.name = "console" then { h with level := level, formatter := fmt }
        else h }
  else st

/-- `enable_debug()`: set the module console defaults to DEBUG plus the debug
format and push them onto the attached console handler (when set up). -/
def enable_debug (st : LogState) : LogState :=
  let st1 := { st with consoleLevel := DEBUG, consoleFormat := Fmt.debug }
  _set_console_handler DEBUG Fmt.debug st1

/-- `disable_debug()`: set the module console defaults to INFO plus the user
format and push them onto the attached console handler (when set up). -/
def disable_debug (st : LogState) : LogState :=
  let st1 := { st with consoleLevel := INFO, consoleFormat := Fmt.user }
  _set_console_handler INFO Fmt.user st1

lemma enable_debug_handlers_of_setup (st : LogState) (h : st.logSetup = true) :
    (enable_debug st).handlers = st.handlers.map fun hd =>
      if hd.name = "console" then { hd with level := DEBUG, formatter := Fmt.debug }
      else hd := by
  simp [enable_debug, _set_console_handler, get_logger, h]

lemma disable_debug_handlers_of_setup (st : LogState) (h : st.logSetup = true) :
    (disable_debug st).handlers = st.handlers.map fun hd =>
      if hd.name = "console" then { hd with level := INFO, formatter := Fmt.user }
      else hd := by
  simp [disable_debug, _set_console_handler, get_logger, h]

/-- C4: once the logger is set up, `enable_debug()` and `disable_debug()`
keep the handler list the same length and, position by position, leave every
handler not named `"console"` (in particular the buffer sink: its level, its
formatter and its accumulated stream contents) completely unchanged, while
the handler named `"console"` gets level DEBUG with the debug format
(respectively level INFO with the user format) and keeps its other fields. -/
theorem debug_toggles_touch_only_console (st : LogState)
    (hsetup : st.logSetup = true) :
    (enable_debug st).handlers.length = st.handlers.length ∧
    (disable_debug st).handlers.length = st.handlers.length ∧
    ∀ (i : Nat) (h : Handler), st.handlers[i]? = some h →
      (h.name ≠ "console" →
        (enable_debug st).handlers[i]? = some h ∧
        (disable_debug st).handlers[i]? = some h) ∧
      (h.name = "console" →
        (enable_debug st).handlers[i]? = some
          { h with level := DEBUG, formatter := Fmt.debug } ∧
        (disable_debug st).handlers[i]? = some
          { h with level := INFO, formatter := Fmt.user }) := by
  have he := enable_debug_handlers_of_setup st hsetup
  have hd := disable_debug_handlers_of_setup st hsetup
  refine ⟨by rw [he]; simp, by rw [hd]; simp, ?_⟩
  intro i h hi
  constructor
  · intro hname
    constructor
    · rw [he, List.getElem?_map, hi]
      simp [hname]
    · rw [hd, List.getElem?_map, hi]
      simp [hname]
  · intro hname
    constructor
    · rw [he, List.getElem?_map, hi]
      simp [hname]
    · rw [hd, List.getElem?_map, hi]
      simp [hname]

/-- Witness for C4 at the concrete state reached by the first `get_logger()`
call from the imported module. -/
theorem debug_toggles_touch_only_console_witness :
    (get_logger initState).logSetup = true ∧
    ((enable_debug (get_logger initState)).handlers.length =
        (get_logger initState).handlers.length ∧
     (disable_debug (get_logger initState)).handlers.length =
        (get_logger initState).handlers.length ∧
     ∀ (i : Nat) (h : Handler), (get_logger initState).handlers[i]? = some h →
       (h.name ≠ "console" →
         (enable_debug (get_logger initState)).handlers[i]? = some h ∧
         (disable_debug (get_logger initState)).handlers[i]? = some h) ∧
       (h.name = "console" →
         (enable_debug (get_logger initState)).handlers[i]? = some
           { h with level := DEBUG, formatter := Fmt.debug } ∧
         (disable_debug (get_logger initState)).handlers[i]? = some
           { h with level := INFO, formatter := Fmt.user })) :=
  ⟨rfl, debug_toggles_touch_only_console (get_logger initState) rfl⟩

/-- C9: before the first `get_logger()` call, the toggles update only the
module-level console defaults, and the console handler created by the later
setup carries the most recently requested level and format.  The buffer
handler is created the same either way. -/
theorem debug_toggle_before_setup_carries_over (st : LogState)
    (h : st.logSetup = false) :
    (get_logger (enable_debug st)).handlers =
      st.handlers ++
        [{ name := "console", level := DEBUG, formatter := Fmt.debug,
           stream := LogStream.stderr }, setup_buffer_handler] ∧
    (get_logger (disable_debug st)).handlers =
      st.handlers ++
        [{ name := "console", level := INFO, formatter := Fmt.user,
           stream := LogStream.stderr }, setup_buffer_handler] ∧
    (get_logger (disable_debug (enable_debug st))).handlers =
      st.handlers ++
        [{ name := "console", level := INFO, formatter := Fmt.user,
           stream := LogStream.stderr }, setup_buffer_handler] ∧
    (get_logger (enable_debug (disable_debug st))).handlers =
      st.handlers ++
        [{ name := "console", level := DEBUG, formatter := Fmt.debug,
           stream := LogStream.stderr }, setup_buffer_handler] := by
  refine ⟨?_, ?_, ?_, ?_⟩ <;>
    simp [enable_debug, disable_debug, _set_console_handler, get_logger, h,
      setup_console_handler]

/-- Witness for C9 at the freshly imported module state. -/
theorem debug_toggle_before_setup_carries_over_witness :
    initState.logSetup = false ∧
    ((get_logger (enable_debug initState)).handlers =
      initState.handlers ++
        [{ name := "console", level := DEBUG, formatter := Fmt.debug,
           stream := LogStream.stderr }, setup_buffer_handler] ∧
    (get_logger (disable_debug initState)).handlers =
      initState.handlers ++
        [{ name := "console", level := INFO, formatter := Fmt.user,
           stream := LogStream.stderr }, setup_buffer_handler] ∧
    (get_logger (disable_debug (enable_debug initState))).handlers =
      initState.handlers ++
        [{ name := "console", level := INFO, formatter := Fmt.user,
           stream := LogStream.stderr }, setup_buffer_handler] ∧
    (get_logger (enable_debug (disable_debug initState))).handlers =
      initState.handlers ++
        [{ name := "console", level := DEBUG, formatter := Fmt.debug,
           stream := LogStream.stderr }, setup_buffer_handler]) :=
  ⟨rfl, debug_toggle_before_setup_carries_over initState rfl⟩

/-- The Python exceptions that the embedded operations raise or catch.
`osError` stands for an `OSError` that is not a `PermissionError` (for
`os.makedirs`) respectively a generic I/O failure; `mkstempError` stands for
the exception `tempfile.mkstemp` raises when the single monkey-patched
candidate name is already taken. -/
inductive PyError where
  | bufferError
  | attributeError
  | osError
  | mkstempError
deriving DecidableEq

/-- The search loop of `get_buffer_contents()`: walk the handler list and
return the `StringIO` contents of the first handler named `"buffer"` (every
handler attached by this module is a `StreamHandler`, so the `isinstance`
guard of the source is always satisfied); calling `.getvalue()` on the
console handler's standard-error stream would raise `AttributeError`; if the
loop falls through, `raise BufferError`. -/
def buffer_lookup : List Handler → Except PyError String
  | [] => Except.error PyError.bufferError
  | h :: t =>
      if h.name = "buffer" then
        match h.stream with
        | LogStream.stringIo c => Except.ok c
        | LogStream.stderr => Except.error PyError.attributeError
      else buffer_lookup t

/-- `get_buffer_contents()`: call `get_logger()` (running setup when needed)
and search its handlers for the buffer sink. -/
def get_buffer_contents (st : LogState) : LogState × Except PyError String :=
  let st' := get_logger st
  (st', buffer_lookup st'.handlers)

lemma buffer_lookup_spec (hs : List Handler)
    (hinv : ∀ hd ∈ hs, hd.name = "buffer" →
      ∃ c, hd.stream = LogStream.stringIo c) :
    (buffer_lookup hs = Except.error PyError.bufferError ↔
       hs.find? (fun x => x.name == "buffer") = none) ∧
    (∀ hd c, hs.find? (fun x => x.name == "buffer") = some hd →
       hd.stream = LogStream.stringIo c → buffer_lookup hs = Except.ok c) := by
  induction hs with
  | nil => simp [buffer_lookup]
  | cons a t ih =>
      have hinvt : ∀ hd ∈ t, hd.name = "buffer" →
          ∃ c, hd.stream = LogStream.stringIo c := fun hd hm hn =>
        hinv hd (List.mem_cons_of_mem _ hm) hn
      obtain ⟨iff1, find1⟩ := ih hinvt
      by_cases ha : a.name = "buffer"
      · obtain ⟨c0, hc0⟩ := hinv a (List.mem_cons_self _ _) ha
        constructor
        · simp [buffer_lookup, ha, hc0, List.find?_cons]
        · intro hd c hfind hstream
          rw [List.find?_cons_of_pos _ (by simp [ha])] at hfind
          cases hfind
          rw [hc0] at hstream
          cases hstream
          simp [buffer_lookup, ha, hc0]
      · have hfind : (a :: t).find? (fun x => x.name == "buffer") =
            t.find? (fun x => x.name == "buffer") :=
          List.find?_cons_of_neg _ (by simp [ha])
        constructor
        · rw [hfind, ← iff1]
          simp [buffer_lookup, ha]
        · intro hd c hf hstream
          rw [hfind] at hf
          have := find1 hd c hf hstream
          simp [buffer_lookup, ha, this]

lemma get_buffer_contents_get_logger (st : LogState) :
    get_buffer_contents (get_logger st) = get_buffer_contents st := by
  simp [get_buffer_contents, get_logger_idem]

/-- C5: provided every attached handler named `"buffer"` is backed by an
in-memory `StringIO` (true of every handler this module ever attaches),
`get_buffer_contents()` raises `BufferError` if and only if no handler named
`"buffer"` can be located among the logger's handlers after `get_logger()`,
and whenever a buffer handler is located it returns exactly the accumulated
contents of that handler's stream. -/
theorem get_buffer_contents_spec (st : LogState)
    (hinv : ∀ hd ∈ (get_logger st).handlers, hd.name = "buffer" →
      ∃ c, hd.stream = LogStream.stringIo c) :
    ((get_buffer_contents st).2 = Except.error PyError.bufferError ↔
       (get_logger st).handlers.find? (fun x => x.name == "buffer") = none) ∧
    (∀ hd c,
       (get_logger st).handlers.find? (fun x => x.name == "buffer") = some hd →
       hd.stream = LogStream.stringIo c →
       (get_buffer_contents st).2 = Except.ok c) := by
  have h := buffer_lookup_spec (get_logger st).handlers hinv
  simpa [get_buffer_contents] using h

/-- Witness for C5 at the freshly imported module state: setup attaches the
buffer sink, which is then located and its (empty) contents returned. -/
theorem get_buffer_contents_spec_witness :
    (∀ hd ∈ (get_logger initState).handlers, hd.name = "buffer" →
      ∃ c, hd.stream = LogStream.stringIo c) ∧
    (((get_buffer_contents initState).2 = Except.error PyError.bufferError ↔
       (get_logger initState).handlers.find?
         (fun x => x.name == "buffer") = none) ∧
    (∀ hd c,
       (get_logger initState).handlers.find?
         (fun x => x.name == "buffer") = some hd →
       hd.stream = LogStream.stringIo c →
       (get_buffer_contents initState).2 = Except.ok c)) := by
  have hinv : ∀ hd ∈ (get_logger initState).handlers, hd.name = "buffer" →
      ∃ c, hd.stream = LogStream.stringIo c := by
    intro hd hmem hname
    have hh : (get_logger initState).handlers =
        [{ name := "console", level := INFO, formatter := Fmt.user,
           stream := LogStream.stderr },
         { name := "buffer", level := DEBUG, formatter := Fmt.debug,
           stream := LogStream.stringIo "" }] := rfl
    rw [hh] at hmem
    simp only [List.mem_cons, List.mem_singleton, List.not_mem_nil,
      or_false] at hmem
    rcases hmem with h1 | h2
    · rw [h1] at hname
      exact absurd hname (by decide)
    · rw [h2]
      exact ⟨"", rfl⟩
  exact ⟨hinv, get_buffer_contents_spec initState hinv⟩

/-- Outcome of `os.makedirs(path)`: success, a `PermissionError` (the only
exception the caller catches), or any other `OSError` such as the
`NotADirectoryError` raised when a parent of the path is a regular file or
the `OSError` raised on a read-only filesystem. -/
inductive MakedirsRes where
  | ok
  | permError
  | otherError
deriving DecidableEq

/-- Outcome of `os.remove(path)`: success, `FileNotFoundError` (caught and
ignored by `write_testfile`), or another `OSError`/`IOError` (caught by the
outer handler of `write_testfile`). -/
inductive RemoveRes where
  | ok
  | notFound
  | ioError
deriving DecidableEq

/-- A snapshot of the ambient operating system consulted by the module: the
OS-dependent `_LOG_DIR` constant, filesystem predicates, the outcomes of the
system calls the module performs, the OS-default temporary directory that
`get_tempdir()` resolves (with the TMPDIR/TEMP/TMP overrides suppressed and
restored, an environment-variable detail folded into this one field), and the
host name and current second-precision timestamp used for log file names. -/
structure Env where
  sysLogDir : String
  isDir : String → Bool
  pathExists : String → Bool
  isFile : String → Bool
  makedirsRes : String → MakedirsRes
  openWriteOk : String → Bool
  removeRes : String → RemoveRes
  sysTempDir : String
  hostname : String
  timestamp : String

/-- `get_tempdir()`: the OS-default system temp directory (environment
variable juggling abstracted into `Env.sysTempDir`). -/
def get_tempdir (env : Env) : String := env.sysTempDir

/-- `write_testfile(testfile_path)`: try to create and write the marker file
(any `IOError` makes the function log and return `False`); then try to remove
it, where `FileNotFoundError` is ignored and any other `IOError` is caught by
the outer handler, also returning `False`. -/
def write_testfile (env : Env) (testfile_path : String) : Bool :=
  if env.openWriteOk testfile_path then
    match env.removeRes testfile_path with
    | RemoveRes.ioError => false
    | _ => true
  else false

/-- What `get_logdir()` did and returned: the returned directory path, the
marker-file paths passed to `write_testfile` in order, whether the temp-dir
fallback was taken, and whether the final "Failed to write log file" error
line was emitted. -/
structure LogdirTrace where
  dir : String
  tested : List String
  usedTempdir : Bool
  finalErrorLogged : Bool
deriving DecidableEq

/-- Lines 164-174 of the source: the write test of the chosen directory and
the temp-dir fallback.  `testfile` was computed from the system log dir and —
exactly as in the source — is *not* recomputed after `logdir` is reassigned
to the temp dir, so the second `write_testfile` call probes the same
marker path again.  The `or` short-circuits: when `use_tempdir` is already
set the first write test is skipped. -/
def logdir_tail (env : Env) (syslogdir testfile : String)
    (use_tempdir : Bool) : LogdirTrace :=
  if use_tempdir then
    if write_testfile env testfile then
      { dir := get_tempdir env, tested := [testfile], usedTempdir := true,
        finalErrorLogged := false }
    else
      { dir := get_tempdir env, tested := [testfile], usedTempdir := true,
        finalErrorLogged := true }
  else if write_testfile env testfile then
    { dir := syslogdir, tested := [testfile], usedTempdir := false,
      finalErrorLogged := false }
  else if write_testfile env testfile then
    { dir := get_tempdir env, tested := [testfile, testfile],
      usedTempdir := true, finalErrorLogged := false }
  else
    { dir := get_tempdir env, tested := [testfile, testfile],
      usedTempdir := true, finalErrorLogged := true }

/-- `get_logdir()`: probe the fixed system log path (`is_dir`, `exists`,
`os.makedirs` with only `PermissionError` caught — any other `OSError` from
`makedirs` propagates to the caller as `Except.error`), then run the
write-test / temp-dir fallback tail. -/
def get_logdir (env : Env) : Except PyError LogdirTrace :=
  let syslogdir := env.sysLogDir
  let testfile := syslogdir ++ "/fmld.testfile"
  if env.isDir syslogdir then
    Except.ok (logdir_tail env syslogdir testfile false)
  else if env.pathExists syslogdir then
    Except.ok (logdir_tail env syslogdir testfile true)
  else
    match env.makedirsRes syslogdir with
    | MakedirsRes.ok => Except.ok (logdir_tail env syslogdir testfile false)
    | MakedirsRes.permError =>
        Except.ok (logdir_tail env syslogdir testfile true)
    | MakedirsRes.otherError => Except.error PyError.osError

/-- A filesystem snapshot on which `/var/tmp` exists but is a regular file
(so step 2 of the resolver falls back to the temp dir), no marker file can be
created under the file path `/var/tmp`, and the OS temp dir `/tmp` is fully
writable. -/
def envC2 : Env :=
  { sysLogDir := "/var/tmp",
    isDir := fun _ => false,
    pathExists := fun p => p == "/var/tmp",
    isFile := fun _ => false,
    makedirsRes := fun _ => MakedirsRes.ok,
    openWriteOk := fun p => !(p == "/var/tmp/fmld.testfile"),
    removeRes := fun _ => RemoveRes.ok,
    sysTempDir := "/tmp",
    hostname := "labhost",
    timestamp := "20260101.120000" }

/-- C2 (code bug): on `envC2` the resolver falls back to the temp dir and
returns it, but the only marker path it ever write-tests is
`/var/tmp/fmld.testfile` — the marker under the *system* log dir, because the
source never recomputes `testfile` after reassigning `logdir` to the temp
dir.  The temp-dir marker `/tmp/fmld.testfile` would have been writable, yet
the "Failed to write log file" error is logged anyway and the temp dir is
never write-tested, contradicting the claimed behaviour. -/
theorem get_logdir_never_tests_tempdir :
    get_logdir envC2 =
      Except.ok
        { dir := "/tmp", tested := ["/var/tmp/fmld.testfile"],
          usedTempdir := true, finalErrorLogged := true } ∧
    write_testfile envC2 "/tmp/fmld.testfile" = true ∧
    "/tmp/fmld.testfile" ∉ ["/var/tmp/fmld.testfile"] :=
  ⟨rfl, rfl, by decide⟩

/-- A filesystem snapshot on which the fixed system log path is missing and
`os.makedirs` fails with an `OSError` that is not a `PermissionError`
(for example `NotADirectoryError`, raised when `/var` itself is a regular
file, or the `OSError` of a read-only filesystem). -/
def envBad : Env :=
  { sysLogDir := "/var/tmp",
    isDir := fun _ => false,
    pathExists := fun _ => false,
    isFile := fun _ => false,
    makedirsRes := fun _ => MakedirsRes.otherError,
    openWriteOk := fun _ => true,
    removeRes := fun _ => RemoveRes.ok,
    sysTempDir := "/tmp",
    hostname := "labhost",
    timestamp := "20260101.120000" }

/-- C3 counterexample: on `envBad` the uncaught `OSError` from `os.makedirs`
propagates out of `get_logdir()` — the function does not return a path, so it
does not hold for every filesystem state that `get_logdir()` never raises. -/
theorem get_logdir_can_raise : get_logdir envBad = Except.error PyError.osError :=
  rfl

lemma logdir_tail_tempdir_dir (env : Env) (s t : String) :
    (logdir_tail env s t true).dir = env.sysTempDir := by
  by_cases hw : write_testfile env t <;> simp [logdir_tail, hw, get_tempdir]

/-- C3 (amended): on every filesystem state in which any failure of
`os.makedirs` on the system log path is a `PermissionError`, `get_logdir()`
returns a path and raises nothing; in particular, when the system log path is
missing and its creation fails for lack of permission, the OS temp directory
is the returned path. -/
theorem get_logdir_total_unless_makedirs_oserror (env : Env)
    (h : env.makedirsRes env.sysLogDir ≠ MakedirsRes.otherError) :
    (∃ t, get_logdir env = Except.ok t) ∧
    (env.isDir env.sysLogDir = false → env.pathExists env.sysLogDir = false →
      env.makedirsRes env.sysLogDir = MakedirsRes.permError →
      ∃ t, get_logdir env = Except.ok t ∧ t.dir = env.sysTempDir) := by
  constructor
  · by_cases h1 : env.isDir env.sysLogDir
    · refine ⟨logdir_tail env env.sysLogDir
        (env.sysLogDir ++ "/fmld.testfile") false, ?_⟩
      simp [get_logdir, h1]
    · by_cases h2 : env.pathExists env.sysLogDir
      · refine ⟨logdir_tail env env.sysLogDir
          (env.sysLogDir ++ "/fmld.testfile") true, ?_⟩
        simp [get_logdir, h1, h2]
      · cases h3 : env.makedirsRes env.sysLogDir with
        | ok =>
            refine ⟨logdir_tail env env.sysLogDir
              (env.sysLogDir ++ "/fmld.testfile") false, ?_⟩
            simp [get_logdir, h1, h2, h3]
        | permError =>
            refine ⟨logdir_tail env env.sysLogDir
              (env.sysLogDir ++ "/fmld.testfile") true, ?_⟩
            simp [get_logdir, h1, h2, h3]
        | otherError => exact absurd h3 h
  · intro h1 h2 h3
    refine ⟨logdir_tail env env.sysLogDir (env.sysLogDir ++ "/fmld.testfile") true,
      ?_, logdir_tail_tempdir_dir env _ _⟩
    simp [get_logdir, h1, h2, h3]

/-- A filesystem snapshot where the missing system log path cannot be created
for lack of permission. -/
def envPerm : Env :=
  { sysLogDir := "/var/tmp",
    isDir := fun _ => false,
    pathExists := fun _ => false,
    isFile := fun _ => false,
    makedirsRes := fun _ => MakedirsRes.permError,
    openWriteOk := fun _ => true,
    removeRes := fun _ => RemoveRes.ok,
    sysTempDir := "/tmp",
    hostname := "labhost",
    timestamp := "20260101.120000" }

/-- Witness for the amended C3 on `envPerm`: creation of the log dir is
denied, no exception escapes, and the temp directory is returned. -/
theorem get_logdir_total_unless_makedirs_oserror_witness :
    (envPerm.makedirsRes envPerm.sysLogDir ≠ MakedirsRes.otherError) ∧
    ((∃ t, get_logdir envPerm = Except.ok t) ∧
    (envPerm.isDir envPerm.sysLogDir = false →
      envPerm.pathExists envPerm.sysLogDir = false →
      envPerm.makedirsRes envPerm.sysLogDir = MakedirsRes.permError →
      ∃ t, get_logdir envPerm = Except.ok t ∧ t.dir = envPerm.sysTempDir)) :=
  ⟨by decide, get_logdir_total_unless_makedirs_oserror envPerm (by decide)⟩

/-- `make_logfile()`: resolve the log directory (its exceptions propagate),
then run `tempfile.mkstemp` with the candidate-name generation monkey-patched
to yield the single name `platform.node()`, prefix `"fmld."` and suffix
`".<timestamp>.out"`.  With the single candidate already taken, `mkstemp`
raises instead of retrying (`mkstempError`); a creation failure at the path
is an uncaught `OSError`. -/
def make_logfile (env : Env) : Except PyError String :=
  let suffix := "." ++ env.timestamp ++ ".out"
  match get_logdir env with
  | Except.error e => Except.error e
  | Except.ok tr =>
      let tmpdir := tr.dir
      let path := tmpdir ++ "/" ++ "fmld." ++ env.hostname ++ suffix
      if env.pathExists path then Except.error PyError.mkstempError
      else if env.openWriteOk path then Except.ok path
      else Except.error PyError.osError

/-- One completed file write: the path opened with mode `"w"` and the full
text written to it. -/
structure FileWrite where
  path : String
  content : String
deriving DecidableEq

/-- What `buffer_to_logfile()` did and returned: the file writes that
completed, whether `LOG.exception` ran, the path named by the
"Failed to write log file" error line (if logged), and the returned value —
`Except.error` models an exception propagating to the caller, `Except.ok
none` the bare `return None` of the failure path.  A file created by `open`
but left empty because `get_buffer_contents()` raised inside the `with` block
is not recorded as a write. -/
structure FileExportResult where
  writes : List FileWrite
  exceptionLogged : Bool
  errorLoggedPath : Option String
  ret : Except PyError (Option String)

/-- `buffer_to_logfile(path=None)`: a falsy path argument (absent or the
empty string) is replaced by `make_logfile()` *outside* the `try` block, so
exceptions from `make_logfile` propagate; inside the `try`, an `IOError` from
`open` is caught, logged and turned into `return None`, while a
`BufferError` from `get_buffer_contents()` is not an `IOError` and
propagates. -/
def buffer_to_logfile (env : Env) (st : LogState) (pathArg : Option String) :
    FileExportResult :=
  let _st0 := get_logger st
  let pres : Except PyError String :=
    match pathArg with
    | none => make_logfile env
    | some p => if p = "" then make_logfile env else Except.ok p
  match pres with
  | Except.error e =>
      { writes := [], exceptionLogged := false, errorLoggedPath := none,
        ret := Except.error e }
  | Except.ok p =>
      if env.openWriteOk p then
        match (get_buffer_contents (get_logger st)).2 with
        | Except.ok c =>
            { writes := [{ path := p, content := c }],
              exceptionLogged := false, errorLoggedPath := none,
              ret := Except.ok (some p) }
        | Except.error e =>
            { writes := [], exceptionLogged := false, errorLoggedPath := none,
              ret := Except.error e }
      else
        { writes := [], exceptionLogged := true, errorLoggedPath := some p,
          ret := Except.ok none }

/-- C6: for every buffer state whose contents are readable and every
non-empty explicit target path, `buffer_to_logfile(path)` on success performs
exactly one write, whose content is exactly the string
`get_buffer_contents()` returns (an empty buffer giving an empty file), and
returns the path; when opening the path for writing fails, it logs the
exception together with the failed path and returns `None` instead of
raising. -/
theorem buffer_to_logfile_roundtrip (env : Env) (st : LogState)
    (p c : String) (hp : p ≠ "")
    (hc : (get_buffer_contents st).2 = Except.ok c) :
    (env.openWriteOk p = true →
      buffer_to_logfile env st (some p) =
        { writes := [{ path := p, content := c }], exceptionLogged := false,
          errorLoggedPath := none, ret := Except.ok (some p) }) ∧
    (env.openWriteOk p = false →
      buffer_to_logfile env st (some p) =
        { writes := [], exceptionLogged := true, errorLoggedPath := some p,
          ret := Except.ok none }) := by
  have hc' : (get_buffer_contents (get_logger st)).2 = Except.ok c := by
    rw [get_buffer_contents_get_logger]; exact hc
  constructor
  · intro hw
    simp [buffer_to_logfile, hp, hw, hc']
  · intro hw
    simp [buffer_to_logfile, hp, hw]

/-- A fully permissive filesystem snapshot: the system log dir exists as a
directory and every path is writable and removable. -/
def envOk : Env :=
  { sysLogDir := "/var/tmp",
    isDir := fun p => p == "/var/tmp",
    pathExists := fun p => p == "/var/tmp",
    isFile := fun _ => false,
    makedirsRes := fun _ => MakedirsRes.ok,
    openWriteOk := fun _ => true,
    removeRes := fun _ => RemoveRes.ok,
    sysTempDir := "/tmp",
    hostname := "labhost",
    timestamp := "20260101.120000" }

/-- Witness for C6: exporting the (empty) buffer of the freshly set-up logger
to an explicit path on the permissive filesystem writes an empty file there
and returns that path. -/
theorem buffer_to_logfile_roundtrip_witness :
    ("/var/tmp/out.log" ≠ "") ∧
    (get_buffer_contents initState).2 = Except.ok "" ∧
    ((envOk.openWriteOk "/var/tmp/out.log" = true →
      buffer_to_logfile envOk initState (some "/var/tmp/out.log") =
        { writes := [{ path := "/var/tmp/out.log", content := "" }],
          exceptionLogged := false, errorLoggedPath := none,
          ret := Except.ok (some "/var/tmp/out.log") }) ∧
    (envOk.openWriteOk "/var/tmp/out.log" = false →
      buffer_to_logfile envOk initState (some "/var/tmp/out.log") =
        { writes := [], exceptionLogged := true,
          errorLoggedPath := some "/var/tmp/out.log",
          ret := Except.ok none })) :=
  ⟨by decide, rfl,
    buffer_to_logfile_roundtrip envOk initState "/var/tmp/out.log" ""
      (by decide) rfl⟩

/-- C10: when `buffer_to_logfile()` is called without a path (or with the
falsy empty string), a failing `make_logfile()` makes the whole call fail
with that exception: nothing is written, nothing is logged by the handler of
the `try` block, and the caller sees the exception rather than the `None`
"no result" signal. -/
theorem buffer_to_logfile_propagates_make_logfile (env : Env) (st : LogState)
    (e : PyError) (h : make_logfile env = Except.error e) :
    buffer_to_logfile env st none =
      { writes := [], exceptionLogged := false, errorLoggedPath := none,
        ret := Except.error e } ∧
    (buffer_to_logfile env st none).ret ≠ Except.ok none := by
  constructor
  · simp [buffer_to_logfile, h]
  · simp [buffer_to_logfile, h]

/-- A filesystem snapshot on which the log dir resolves to the writable
`/var/tmp` but a log file named with the same hostname and the same
second-precision timestamp already exists, so `mkstemp`'s single candidate
name collides. -/
def envColl : Env :=
  { sysLogDir := "/var/tmp",
    isDir := fun p => p == "/var/tmp",
    pathExists := fun p => p == "/var/tmp/fmld.labhost.20260101.120000.out",
    isFile := fun _ => false,
    makedirsRes := fun _ => MakedirsRes.ok,
    openWriteOk := fun _ => true,
    removeRes := fun _ => RemoveRes.ok,
    sysTempDir := "/tmp",
    hostname := "labhost",
    timestamp := "20260101.120000" }

/-- Witness for C10 on `envColl`: the name collision inside `make_logfile`
propagates out of `buffer_to_logfile()`. -/
theorem buffer_to_logfile_propagates_make_logfile_witness :
    make_logfile envColl = Except.error PyError.mkstempError ∧
    (buffer_to_logfile envColl initState none =
      { writes := [], exceptionLogged := false, errorLoggedPath := none,
        ret := Except.error PyError.mkstempError } ∧
    (buffer_to_logfile envColl initState none).ret ≠ Except.ok none) :=
  ⟨rfl,
    buffer_to_logfile_propagates_make_logfile envColl initState
      PyError.mkstempError rfl⟩

/-- `_APP_ID`: the static app id identifying the caller to the paste
service. -/
def _APP_ID : String := "2647891982183725"

/-- `_APP_TOKEN`: the static app token identifying the caller to the paste
service. -/
def _APP_TOKEN : String := "AeP-kpjEgo3FCGwQ2b0"

/-- The fixed ordered list of OS-typical certificate-store paths probed by
`add_cacert_paths()`: Fedora/CentOS, MacOS, Ubuntu/Debian, Windows (Chef). -/
def cacert_paths : List String :=
  ["/etc/pki/tls/certs/ca-bundle.crt",
   "/etc/ssl/cert.pem",
   "/etc/ssl/certs/ca-certificates.crt",
   "/opscode/chef/embedded/ssl/certs/cacert.pem"]

/-- `add_cacert_paths()`: when the currently configured bundle path
`everpaste._CA_BUNDLE` is not an existing file, walk the fixed list and, at
the first existing path, assign it and break; the resulting bundle path is
returned as the new value of the mutated global. -/
def add_cacert_paths (env : Env) (caBundle : String) : String :=
  if env.isFile caBundle then caBundle
  else
    match cacert_paths.find? (fun p => env.isFile p) with
    | some p => p
    | none => caBundle

/-- The remote paste collaborator: the current `everpaste._CA_BUNDLE` global
and the outcome of `EverPaste(...).create(content, permanent, color)` —
either a URL or an exception (network, auth, serialization, all alike). -/
structure PasteEnv where
  caBundle : String
  createRes : String → Bool → Bool → Except Unit String

/-- What the paste-export operations did and returned: the calls that reached
the remote collaborator (content, permanent, color), the returned URL if
any, whether the failure was logged at debug level, and the final value of
the CA-bundle global. -/
structure PasteExport where
  calls : List (String × Bool × Bool)
  ret : Option String
  debugLogged : Bool
  bundle : String

/-- `create_paste(content, permanent=False, color=False)`: configure the CA
bundle, construct the client with the static credentials, and submit; any
exception is caught, logged at debug level, and turned into `return None`. -/
def create_paste (env : Env) (penv : PasteEnv) (st : LogState)
    (content : String) (permanent : Bool) (color : Bool) : PasteExport :=
  let _st0 := get_logger st
  let bundle := add_cacert_paths env penv.caBundle
  match penv.createRes content permanent color with
  | Except.ok link =>
      { calls := [(content, permanent, color)], ret := some link,
        debugLogged := false, bundle := bundle }
  | Except.error _ =>
      { calls := [(content, permanent, color)], ret := none,
        debugLogged := true, bundle := bundle }

/-- `buffer_log_to_paste()`: read the buffer contents (a `BufferError` from
the lookup propagates); a falsy (empty) content returns `None` without any
remote call, otherwise the contents are forwarded to `create_paste` with the
default flags. -/
def buffer_log_to_paste (env : Env) (penv : PasteEnv) (st : LogState) :
    Except PyError PasteExport :=
  match (get_buffer_contents st).2 with
  | Except.error e => Except.error e
  | Except.ok contents =>
      if contents = "" then
        Except.ok { calls := [], ret := none, debugLogged := false,
                    bundle := penv.caBundle }
      else Except.ok (create_paste env penv (get_buffer_contents st).1
        contents false false)

/-- C7: whenever the buffer contents are readable, `buffer_log_to_paste()`
with an empty buffer returns no result and performs no remote call at all;
with a non-empty buffer it forwards exactly the buffer contents (with the
default flags) to the remote collaborator, a successful call returns its
URL, and a failing call is converted to no result with the failure logged at
debug level — in every case the operation itself returns without raising. -/
theorem buffer_log_to_paste_spec (env : Env) (penv : PasteEnv)
    (st : LogState) (c : String)
    (hc : (get_buffer_contents st).2 = Except.ok c) :
    (c = "" → buffer_log_to_paste env penv st =
      Except.ok { calls := [], ret := none, debugLogged := false,
                  bundle := penv.caBundle }) ∧
    (c ≠ "" →
      (∀ link, penv.createRes c false false = Except.ok link →
        buffer_log_to_paste env penv st =
          Except.ok { calls := [(c, false, false)], ret := some link,
                      debugLogged := false,
                      bundle := add_cacert_paths env penv.caBundle }) ∧
      (penv.createRes c false false = Except.error () →
        buffer_log_to_paste env penv st =
          Except.ok { calls := [(c, false, false)], ret := none,
                      debugLogged := true,
                      bundle := add_cacert_paths env penv.caBundle })) := by
  constructor
  · intro he
    subst he
    simp [buffer_log_to_paste, hc]
  · intro hne
    constructor
    · intro link hres
      simp [buffer_log_to_paste, hc, hne, create_paste, hres]
    · intro hres
      simp [buffer_log_to_paste, hc, hne, create_paste, hres]

/-- A paste collaborator whose current bundle path does not exist and whose
remote call always fails. -/
def penvFail : PasteEnv :=
  { caBundle := "/nonexistent/ca.pem",
    createRes := fun _ _ _ => Except.error () }

/-- A state whose buffer sink holds the non-empty text `"line\n"`. -/
def stWithText : LogState :=
  { logSetup := true, consoleLevel := INFO, consoleFormat := Fmt.user,
    handlers :=
      [{ name := "console", level := INFO, formatter := Fmt.user,
         stream := LogStream.stderr },
       { name := "buffer", level := DEBUG, formatter := Fmt.debug,
         stream := LogStream.stringIo "line\n" }] }

/-- Witness for C7: with a non-empty buffer and a failing remote
collaborator, the contents are forwarded once and the failure is converted
to no result with a debug log line. -/
theorem buffer_log_to_paste_spec_witness :
    (get_buffer_contents stWithText).2 = Except.ok "line\n" ∧
    (("line\n" = "" → buffer_log_to_paste envOk penvFail stWithText =
      Except.ok { calls := [], ret := none, debugLogged := false,
                  bundle := penvFail.caBundle }) ∧
    ("line\n" ≠ "" →
      (∀ link, penvFail.createRes "line\n" false false = Except.ok link →
        buffer_log_to_paste envOk penvFail stWithText =
          Except.ok { calls := [("line\n", false, false)], ret := some link,
                      debugLogged := false,
                      bundle := add_cacert_paths envOk penvFail.caBundle }) ∧
      (penvFail.createRes "line\n" false false = Except.error () →
        buffer_log_to_paste envOk penvFail stWithText =
          Except.ok { calls := [("line\n", false, false)], ret := none,
                      debugLogged := true,
                      bundle := add_cacert_paths envOk penvFail.caBundle }))) :=
  ⟨rfl, buffer_log_to_paste_spec envOk penvFail stWithText "line\n" rfl⟩

lemma find?_first {α : Type} (p : α → Bool) (l : List α) :
    ∀ (i : Nat) (hi : i < l.length),
      p (l.get ⟨i, hi⟩) = true →
      (∀ (j : Nat) (hj : j < i), p (l.get ⟨j, Nat.lt_trans hj hi⟩) = false) →
      l.find? p = some (l.get ⟨i, hi⟩) := by
  induction l with
  | nil => intro i hi; simp at hi
  | cons a t ih =>
      intro i hi hp hb
      cases i with
      | zero =>
          simp only [List.get] at hp
          simp [List.find?, hp]
      | succ k =>
          have ha : p a = false := by
            have := hb 0 (Nat.succ_pos k)
            simpa [List.get] using this
          have hk : k < t.length := Nat.lt_of_succ_lt_succ hi
          have hp' : p (t.get ⟨k, hk⟩) = true := by
            simpa [List.get] using hp
          have hb' : ∀ (j : Nat) (hj : j < k),
              p (t.get ⟨j, Nat.lt_trans hj hk⟩) = false := by
            intro j hj
            have := hb (j + 1) (Nat.succ_lt_succ hj)
            simpa [List.get] using this
          have hrec := ih k hk hp' hb'
          simp [List.find?, ha, hrec, List.get]

/-- C8: `add_cacert_paths()` leaves the client's bundle path unchanged when
the currently configured path is an existing file; otherwise it assigns the
first path of the fixed ordered certificate-store list that exists, and
leaves the bundle unchanged when none of the listed paths exists. -/
theorem add_cacert_paths_spec (env : Env) (caBundle : String) :
    (env.isFile caBundle = true → add_cacert_paths env caBundle = caBundle) ∧
    (env.isFile caBundle = false →
      ((∀ p ∈ cacert_paths, env.isFile p = false) →
        add_cacert_paths env caBundle = caBundle) ∧
      (∀ (i : Nat) (hi : i < cacert_paths.length),
        env.isFile (cacert_paths.get ⟨i, hi⟩) = true →
        (∀ (j : Nat) (hj : j < i),
          env.isFile (cacert_paths.get ⟨j, Nat.lt_trans hj hi⟩) = false) →
        add_cacert_paths env caBundle = cacert_paths.get ⟨i, hi⟩)) := by
  constructor
  · intro hf
    simp [add_cacert_paths, hf]
  · intro hf
    constructor
    · intro hnone
      have : cacert_paths.find? (fun p => env.isFile p) = none := by
        rw [List.find?_eq_none]
        intro x hx
        simp [hnone x hx]
      simp [add_cacert_paths, hf, this]
    · intro i hi hp hb
      have := find?_first (fun p => env.isFile p) cacert_paths i hi hp hb
      simp [add_cacert_paths, hf, this]

/-- A filesystem snapshot on which the first certificate-store path is
missing but the second (the MacOS one) exists. -/
def envCert : Env :=
  { sysLogDir := "/var/tmp",
    isDir := fun p => p == "/var/tmp",
    pathExists := fun p => p == "/var/tmp",
    isFile := fun p => p == "/etc/ssl/cert.pem",
    makedirsRes := fun _ => MakedirsRes.ok,
    openWriteOk := fun _ => true,
    removeRes := fun _ => RemoveRes.ok,
    sysTempDir := "/tmp",
    hostname := "labhost",
    timestamp := "20260101.120000" }

/-- Witness for C8: with a non-existing configured bundle, the second listed
path is the first that exists and is assigned. -/
theorem add_cacert_paths_spec_witness :
    add_cacert_paths envCert "/nonexistent/ca.pem" = "/etc/ssl/cert.pem" := by
  have h := (add_cacert_paths_spec envCert "/nonexistent/ca.pem").2 (by decide)
  have h1 := h.2 1 (by decide) (by decide)
    (by intro j hj; interval_cases j; rfl)
  simpa [cacert_paths] using h1

end FMLog
